import Mathlib

/-!
# Verification of the belt-vision edge aggregator

Shallow embedding of the flask-client core of the conveyor-belt
computer-vision pipeline: the CSV aggregator (`IrisInputProcessor`),
the detector / classifier / CSV-writer / SFTP-uploader worker queues,
the detection image processor, the classifier clamp logic, the thread
manager, and the start/stop control endpoints.  Python dicts are
modelled as association lists with in-place update, wall-clock times
and pixel coordinates as rationals, and Python `int()` / `round()` as
explicit truncation / banker's rounding on rationals.
-/

namespace BetlVision

/-- Python dict assignment `m[k] = v`: update in place when the key is
present, append otherwise (insertion order preserved). -/
def dictUpsert {α : Type} : List (String × α) → String → α → List (String × α)
  | [], k, v => [(k, v)]
  | (k', v') :: rest, k, v =>
      if k' = k then (k, v) :: rest else (k', v') :: dictUpsert rest k v

/-- Python dict lookup `m[k]` / `k in m`. -/
def dictGet {α : Type} (m : List (String × α)) (k : String) : Option α :=
  match m with
  | [] => none
  | (k', v) :: rest => if k' = k then some v else dictGet rest k

/-! ## CSV aggregator (`iris_communication/iris_input_processor.py`)

`IrisInputProcessor.active_csv_files` is a dict keyed by the stage
(`folder_type` ∈ {model, classifier}); each value records the open
artifact's path, its creation wall-clock and its rollover interval. -/

/-- One value of `self.active_csv_files[folder_type]`. -/
structure ActiveCsvInfo where
  path : String
  start_time : ℚ
  interval : ℚ
deriving Repr, DecidableEq

/-- The `active_csv_files` dict. -/
abbrev ActiveCsvFiles := List (String × ActiveCsvInfo)

/-- One record arrival at the aggregator: the stage, the candidate name
for a fresh artifact, the arrival wall-clock and the configured
`csv_interval_seconds`. -/
structure CsvArrival where
  folderType : String
  newPath : String
  now : ℚ
  interval : ℚ
deriving Repr, DecidableEq

/-- State/decision core of `create_iris_csv_input`: returns the updated
`active_csv_files`, the path written to, and whether a fresh artifact
was created (rollover or first arrival for the stage). -/
def createIrisCsvInput (st : ActiveCsvFiles) (a : CsvArrival) :
    ActiveCsvFiles × String × Bool :=
  match dictGet st a.folderType with
  | some info =>
      if a.now - info.start_time ≥ a.interval then
        (dictUpsert st a.folderType ⟨a.newPath, a.now, a.interval⟩, a.newPath, true)
      else
        (st, info.path, false)
  | none =>
      (dictUpsert st a.folderType ⟨a.newPath, a.now, a.interval⟩, a.newPath, true)

/-- Fold a sequence of record arrivals through the aggregator starting
from the initial empty `active_csv_files` dict. -/
def processArrivals (arrivals : List CsvArrival) : ActiveCsvFiles :=
  arrivals.foldl (fun st a => (createIrisCsvInput st a).1) []

theorem dictUpsert_keys {α : Type} (m : List (String × α)) (k : String) (v : α) :
    (dictUpsert m k v).map Prod.fst = m.map Prod.fst ∨
      (dictUpsert m k v).map Prod.fst = m.map Prod.fst ++ [k] := by
  induction m with
  | nil => right; rfl
  | cons hd tl ih =>
      obtain ⟨k', v'⟩ := hd
      by_cases h : k' = k
      · left; simp [dictUpsert, h]
      · rcases ih with ih | ih
        · left; simp [dictUpsert, h, ih]
        · right; simp [dictUpsert, h, ih]

theorem dictUpsert_keys_nodup {α : Type} (m : List (String × α)) (k : String) (v : α)
    (hm : (m.map Prod.fst).Nodup) : ((dictUpsert m k v).map Prod.fst).Nodup := by
  induction m with
  | nil => simp [dictUpsert]
  | cons hd tl ih =>
      obtain ⟨k', v'⟩ := hd
      simp only [List.map_cons, List.nodup_cons] at hm
      by_cases h : k' = k
      · subst h
        have hstep : dictUpsert ((k', v') :: tl) k' v = (k', v) :: tl := by
          simp [dictUpsert]
        rw [hstep]
        simp only [List.map_cons, List.nodup_cons]
        exact hm
      · simp only [dictUpsert, if_neg h, List.map_cons, List.nodup_cons]
        refine ⟨?_, ih hm.2⟩
        intro hmem
        rcases dictUpsert_keys tl k v with heq | heq
        · rw [heq] at hmem
          exact hm.1 hmem
        · rw [heq, List.mem_append] at hmem
          rcases hmem with hmem | hmem
          · exact hm.1 hmem
          · simp at hmem
            exact h hmem

theorem createIrisCsvInput_keys_nodup (st : ActiveCsvFiles) (a : CsvArrival)
    (h : (st.map Prod.fst).Nodup) :
    (((createIrisCsvInput st a).1).map Prod.fst).Nodup := by
  unfold createIrisCsvInput
  cases dictGet st a.folderType with
  | none => exact dictUpsert_keys_nodup st a.folderType _ h
  | some info =>
      by_cases hc : a.now - info.start_time ≥ a.interval
      · simpa [hc] using dictUpsert_keys_nodup st a.folderType _ h
      · simpa [hc] using h

theorem processArrivals_keys_nodup (arrivals : List CsvArrival) :
    ((processArrivals arrivals).map Prod.fst).Nodup := by
  suffices h : ∀ (st : ActiveCsvFiles), (st.map Prod.fst).Nodup →
      ((arrivals.foldl (fun st a => (createIrisCsvInput st a).1) st).map Prod.fst).Nodup by
    exact h [] (by simp)
  induction arrivals with
  | nil => intro st hst; simpa using hst
  | cons a rest ih =>
      intro st hst
      exact ih _ (createIrisCsvInput_keys_nodup st a hst)

/-- C3: For every (stage, source) pair, at most one CSV artifact is open
at any instant.  `active_csv_files` is keyed by the stage alone, and
processing any sequence of record arrivals from the initial state keeps
its keys duplicate-free, so every stage — a fortiori every
(stage, source) pair — has at most one open artifact; a rollover
replaces the stage's entry rather than adding a second one. -/
theorem csv_at_most_one_open_artifact (arrivals : List CsvArrival) (stage : String) :
    ((processArrivals arrivals).filter (fun e => e.1 = stage)).length ≤ 1 := by
  have hnodup := processArrivals_keys_nodup arrivals
  set m := processArrivals arrivals with hm
  rcases hfilter : m.filter (fun e => e.1 = stage) with _ | ⟨e1, rest⟩
  · rw [hfilter]; simp
  · rcases rest with _ | ⟨e2, rest2⟩
    · rw [hfilter]; simp
    · exfalso
      have hsub : List.Sublist (e1 :: e2 :: rest2) m := by
        rw [← hfilter]; exact List.filter_sublist m
      have hnod2 : ((e1 :: e2 :: rest2).map Prod.fst).Nodup :=
        List.Nodup.sublist (List.Sublist.map Prod.fst hsub) hnodup
      have he1 : e1 ∈ m.filter (fun e => e.1 = stage) := by rw [hfilter]; simp
      have he2 : e2 ∈ m.filter (fun e => e.1 = stage) := by rw [hfilter]; simp
      have h1 : e1.1 = stage := by simpa using (List.mem_filter.mp he1).2
      have h2 : e2.1 = stage := by simpa using (List.mem_filter.mp he2).2
      simp only [List.map_cons, List.nodup_cons, List.mem_cons] at hnod2
      exact hnod2.1 (Or.inl (h1.trans h2.symm))

/-! ## Rational arithmetic primitives

Python `int()` truncates toward zero and Python 3 `round()` rounds half
to even; both are modelled explicitly on ℚ. -/

/-- Python `int(q)`: truncation toward zero (the denominator of a
normalised rational is positive, so `Int.tdiv num den` is exactly it). -/
def ratTrunc (q : ℚ) : ℤ := Int.tdiv q.num q.den

/-- Mathematical floor of a rational, computed on the representation. -/
def ratFloorZ (q : ℚ) : ℤ := Int.fdiv q.num q.den

/-- Python 3 `round(q)`: round half to even. -/
def pyRound (q : ℚ) : ℤ :=
  let f := ratFloorZ q
  let r := q - (f : ℚ)
  if r < 1/2 then f
  else if 1/2 < r then f + 1
  else if f % 2 = 0 then f else f + 1

theorem ratTrunc_intCast (n : ℤ) : ratTrunc (n : ℚ) = n := by
  simp [ratTrunc, Rat.intCast_num, Rat.intCast_den, Int.tdiv_one]

/-! ## Classifier clamp (`computer_vision/classifier_image_processor.py`)

`classifier_process_image` validates the predicted class index against
`class_names`: an index `≥ len(class_names)` is clamped to
`len(class_names) - 1` after logging an error. -/

/-- Index-resolution core of `classifier_process_image`: returns the
resolved class name (`none` mirrors a Python `IndexError`) and whether
an error log entry was produced. -/
def resolveClassIndex (classNames : List String) (idx : ℕ) : Option String × Bool :=
  if classNames.length ≤ idx then
    (classNames.get? (classNames.length - 1), true)
  else
    (classNames.get? idx, false)

/-- C6: a predicted index `≥ len(class_names)` (in particular
`= len(class_names)`) resolves to `class_names[len - 1]` with an error
log entry; an in-range index resolves to `class_names[index]` with no
error. -/
theorem classifier_clamp (names : List String) (idx : ℕ) (h : names ≠ []) :
    (names.length ≤ idx →
      resolveClassIndex names idx = (some (names.getLast h), true)) ∧
    (∀ h2 : idx < names.length,
      resolveClassIndex names idx = (some (names.get ⟨idx, h2⟩), false)) := by
  constructor
  · intro hle
    rw [resolveClassIndex, if_pos hle]
    rw [← List.getLast?_eq_get?, List.getLast?_eq_getLast names h]
  · intro h2
    rw [resolveClassIndex, if_neg (by omega)]
    rw [List.get?_eq_get h2]

/-- Witness for C6: with three class names, index 3 clamps to the last
name with an error and index 1 resolves in range without one. -/
theorem classifier_clamp_witness :
    resolveClassIndex ["idle", "running", "blocked"] 3 = (some "blocked", true) ∧
    resolveClassIndex ["idle", "running", "blocked"] 1 = (some "running", false) := by
  constructor
  · have h := (classifier_clamp ["idle", "running", "blocked"] 3 (by decide)).1 (by decide)
    simpa using h
  · have h := (classifier_clamp ["idle", "running", "blocked"] 1 (by decide)).2 (by decide)
    simpa using h

/-! ## Detector image processing (`computer_vision/ml_model_image_processor.py`)

`object_process_image` measures each detection box, converts to
millimetres, filters into `particles_to_detect` / `particles_to_save`,
and returns `[image, xyxy, particles_to_detect, particles_to_save]`.
The volume power law `est_particle_volume_x * d ** est_particle_volume_exp`
uses a non-integral float exponent; it is abstracted as an injected
function `vol : ℤ → ℚ` (no claim depends on its values). -/

/-- `CameraSettings` fields used by `object_process_image`. -/
structure CameraSettings where
  min_conf : ℚ
  pixels_per_mm : ℚ
  min_d_detect : ℚ
  min_d_save : ℚ
  max_d_detect : ℚ
  max_d_save : ℚ
  particle_bb_dimension_factor : ℚ
deriving Repr, DecidableEq

/-- A detection bounding box `[x1, y1, x2, y2]` in (fractional) pixels. -/
structure Box where
  x1 : ℚ
  y1 : ℚ
  x2 : ℚ
  y2 : ℚ
deriving Repr, DecidableEq

def Box.toList (b : Box) : List ℚ := [b.x1, b.y1, b.x2, b.y2]

/-- The per-particle record built by `object_process_image`. -/
structure DetectedParticle where
  conf : ℚ
  width_px : ℤ
  height_px : ℤ
  width_mm : ℤ
  height_mm : ℤ
  max_d_mm : ℤ
  volume_est : ℚ
deriving Repr, DecidableEq

/-- One particle's measurements, following the source line by line:
`width_px = int(x2 - x1)`, `width_mm = int((x2 - x1) / pixels_per_mm)`
(from the un-truncated width), `max_d_mm = round(max(width_mm,
height_mm) * particle_bb_dimension_factor)`. -/
def mkParticle (s : CameraSettings) (vol : ℤ → ℚ) (b : Box) (c : ℚ) : DetectedParticle :=
  let w := b.x2 - b.x1
  let h := b.y2 - b.y1
  let wm := ratTrunc (w / s.pixels_per_mm)
  let hm := ratTrunc (h / s.pixels_per_mm)
  let md := pyRound ((max wm hm : ℤ) * s.particle_bb_dimension_factor)
  { conf := c
    width_px := ratTrunc w
    height_px := ratTrunc h
    width_mm := wm
    height_mm := hm
    max_d_mm := md
    volume_est := vol md }

/-- The list `[image, xyxy, particles_to_detect, particles_to_save]`
returned by `object_process_image`. -/
structure DetectorResult where
  image : String
  xyxy : List (List ℚ)
  toDetect : List DetectedParticle
  toSave : List DetectedParticle
deriving Repr, DecidableEq

/-- All particles before dimension filtering. -/
def allParticles (s : CameraSettings) (vol : ℤ → ℚ) (dets : List (Box × ℚ)) :
    List DetectedParticle :=
  dets.map (fun bc => mkParticle s vol bc.1 bc.2)

/-- Measurement-and-filtering core of `object_process_image` on the
decoded detections (box, confidence). -/
def objectProcessImage (s : CameraSettings) (vol : ℤ → ℚ) (image : String)
    (dets : List (Box × ℚ)) : DetectorResult :=
  let all := allParticles s vol dets
  { image := image
    xyxy := dets.map (fun bc => bc.1.toList)
    toDetect := all.filter
      (fun p => s.min_d_detect ≤ (p.max_d_mm : ℚ) ∧ (p.max_d_mm : ℚ) ≤ s.max_d_detect)
    toSave := all.filter
      (fun p => s.min_d_save ≤ (p.max_d_mm : ℚ) ∧ (p.max_d_mm : ℚ) ≤ s.max_d_save) }

/-- `result_for_csv = [result[0], result[1], result[2]]` in
`model_detector_thread._detector_worker`: only `particles_to_detect`
is forwarded to the CSV writer. -/
def resultForCsv (r : DetectorResult) : String × List (List ℚ) × List DetectedParticle :=
  (r.image, r.xyxy, r.toDetect)

/-- One detector CSV row (`_transform_model_data_to_dataframe`). -/
structure DetectorCsvRow where
  timestamp : String
  image : String
  xyxy : List ℚ
  conf : ℚ
  width_px : ℤ
  height_px : ℤ
  width_mm : ℤ
  height_mm : ℤ
  max_d_mm : ℤ
  volume_est : ℚ
  time_diff : ℚ
  images_per_second : ℚ
deriving Repr, DecidableEq, Inhabited

/-- Row construction loop of `_transform_model_data_to_dataframe`:
particle `i` is paired with `xyxy_data[i]` when in range, else `[]`. -/
def modelRowsAux (xyxyData : List (List ℚ)) (ts img : String) (td ips : ℚ) :
    ℕ → List DetectedParticle → List DetectorCsvRow
  | _, [] => []
  | i, p :: rest =>
      { timestamp := ts
        image := img
        xyxy := (xyxyData.get? i).getD []
        conf := p.conf
        width_px := p.width_px
        height_px := p.height_px
        width_mm := p.width_mm
        height_mm := p.height_mm
        max_d_mm := p.max_d_mm
        volume_est := p.volume_est
        time_diff := td
        images_per_second := ips } :: modelRowsAux xyxyData ts img td ips (i + 1) rest

/-- Rows of one detector CSV append: built from `data[2]`, i.e. the
`particles_to_detect` component of `result_for_csv`. -/
def modelDataToRows (d : String × List (List ℚ) × List DetectedParticle)
    (ts : String) (td ips : ℚ) : List DetectorCsvRow :=
  modelRowsAux d.2.1 ts d.1 td ips 0 d.2.2

theorem modelRowsAux_max_d (xyxyData : List (List ℚ)) (ts img : String) (td ips : ℚ)
    (i : ℕ) (ps : List DetectedParticle) (r : DetectorCsvRow)
    (hr : r ∈ modelRowsAux xyxyData ts img td ips i ps) :
    ∃ p ∈ ps, r.max_d_mm = p.max_d_mm := by
  induction ps generalizing i with
  | nil => simp [modelRowsAux] at hr
  | cons p rest ih =>
      rw [modelRowsAux] at hr
      rcases List.mem_cons.mp hr with hr | hr
      · exact ⟨p, by simp, by rw [hr]⟩
      · obtain ⟨q, hq, hqe⟩ := ih (i + 1) hr
        exact ⟨q, by simp [hq], hqe⟩

/-- C4: `to_detect` and `to_save` are the dimension-window filters of
all detections with both bounds inclusive, only `to_detect` is
forwarded to the CSV aggregator, and consequently every detector CSV
row satisfies `min_d_detect ≤ max_d_mm ≤ max_d_detect`. -/
theorem detector_filters_and_csv_bounds (s : CameraSettings) (vol : ℤ → ℚ)
    (image : String) (dets : List (Box × ℚ)) (ts : String) (td ips : ℚ) :
    (∀ p, p ∈ (objectProcessImage s vol image dets).toDetect ↔
      p ∈ allParticles s vol dets ∧
        s.min_d_detect ≤ (p.max_d_mm : ℚ) ∧ (p.max_d_mm : ℚ) ≤ s.max_d_detect) ∧
    (∀ p, p ∈ (objectProcessImage s vol image dets).toSave ↔
      p ∈ allParticles s vol dets ∧
        s.min_d_save ≤ (p.max_d_mm : ℚ) ∧ (p.max_d_mm : ℚ) ≤ s.max_d_save) ∧
    ((resultForCsv (objectProcessImage s vol image dets)).2.2 =
      (objectProcessImage s vol image dets).toDetect) ∧
    (∀ r ∈ modelDataToRows (resultForCsv (objectProcessImage s vol image dets)) ts td ips,
      s.min_d_detect ≤ (r.max_d_mm : ℚ) ∧ (r.max_d_mm : ℚ) ≤ s.max_d_detect) := by
  refine ⟨?_, ?_, rfl, ?_⟩
  · intro p
    simp [objectProcessImage, List.mem_filter]
  · intro p
    simp [objectProcessImage, List.mem_filter]
  · intro r hr
    obtain ⟨p, hp, hpe⟩ := modelRowsAux_max_d _ _ _ _ _ _ _ r hr
    have hmem : p ∈ (objectProcessImage s vol image dets).toDetect := hp
    have hb : s.min_d_detect ≤ (p.max_d_mm : ℚ) ∧ (p.max_d_mm : ℚ) ≤ s.max_d_detect := by
      have := List.mem_filter.mp hmem
      simpa using this.2
    rw [hpe]
    exact hb

/-- C5 (counterexample): with `pixels_per_mm = 1/(900/240) = 4/15` and a
box of fractional width `2.9` px, the code computes
`width_mm = int(2.9 / (4/15)) = int(10.875) = 10`, while the claimed
`int(width_px / pixels_per_mm) = int(2 / (4/15)) = int(7.5) = 7`:
`width_mm` is derived from the un-truncated width, not from `width_px`. -/
theorem detector_width_mm_counterexample :
    (mkParticle ⟨8/10, 4/15, 200, 200, 10000, 10000, 9/10⟩ (fun _ => 0)
        ⟨0, 0, 29/10, 1⟩ 1).width_px = 2 ∧
    (mkParticle ⟨8/10, 4/15, 200, 200, 10000, 10000, 9/10⟩ (fun _ => 0)
        ⟨0, 0, 29/10, 1⟩ 1).width_mm = 10 ∧
    ratTrunc (((mkParticle ⟨8/10, 4/15, 200, 200, 10000, 10000, 9/10⟩ (fun _ => 0)
        ⟨0, 0, 29/10, 1⟩ 1).width_px : ℚ) / (4/15)) = 7 ∧
    (mkParticle ⟨8/10, 4/15, 200, 200, 10000, 10000, 9/10⟩ (fun _ => 0)
        ⟨0, 0, 29/10, 1⟩ 1).width_mm ≠
      ratTrunc (((mkParticle ⟨8/10, 4/15, 200, 200, 10000, 10000, 9/10⟩ (fun _ => 0)
        ⟨0, 0, 29/10, 1⟩ 1).width_px : ℚ) / (4/15)) := by
  refine ⟨?_, ?_, ?_, ?_⟩ <;> with_unfolding_all decide

/-- C5 (amended): `width_px` / `height_px` are the box width and height
truncated toward zero, and `width_mm` / `height_mm` are the
*un-truncated* pixel dimensions divided by `pixels_per_mm` and
truncated; when the box width and height are whole numbers of pixels
this coincides with the claimed `int(width_px / pixels_per_mm)`. -/
theorem detector_dimensions (s : CameraSettings) (vol : ℤ → ℚ) (b : Box) (c : ℚ)
    (wn hn : ℤ) (hw : b.x2 - b.x1 = (wn : ℚ)) (hh : b.y2 - b.y1 = (hn : ℚ)) :
    (mkParticle s vol b c).width_px = ratTrunc (b.x2 - b.x1) ∧
    (mkParticle s vol b c).height_px = ratTrunc (b.y2 - b.y1) ∧
    (mkParticle s vol b c).width_mm = ratTrunc ((b.x2 - b.x1) / s.pixels_per_mm) ∧
    (mkParticle s vol b c).height_mm = ratTrunc ((b.y2 - b.y1) / s.pixels_per_mm) ∧
    (mkParticle s vol b c).width_px = wn ∧
    (mkParticle s vol b c).height_px = hn ∧
    (mkParticle s vol b c).width_mm =
      ratTrunc (((mkParticle s vol b c).width_px : ℚ) / s.pixels_per_mm) ∧
    (mkParticle s vol b c).height_mm =
      ratTrunc (((mkParticle s vol b c).height_px : ℚ) / s.pixels_per_mm) := by
  refine ⟨rfl, rfl, rfl, rfl, ?_, ?_, ?_, ?_⟩
  · show ratTrunc (b.x2 - b.x1) = wn
    rw [hw, ratTrunc_intCast]
  · show ratTrunc (b.y2 - b.y1) = hn
    rw [hh, ratTrunc_intCast]
  · show ratTrunc ((b.x2 - b.x1) / s.pixels_per_mm) =
      ratTrunc ((ratTrunc (b.x2 - b.x1) : ℚ) / s.pixels_per_mm)
    rw [hw, ratTrunc_intCast]
  · show ratTrunc ((b.y2 - b.y1) / s.pixels_per_mm) =
      ratTrunc ((ratTrunc (b.y2 - b.y1) : ℚ) / s.pixels_per_mm)
    rw [hh, ratTrunc_intCast]

/-- Witness for C5 (amended): a 3×2-pixel box at the default
`pixels_per_mm = 4/15` gives `width_px = 3`, `width_mm = int(3/(4/15))
= 11`, agreeing with the claim on whole-pixel boxes. -/
theorem detector_dimensions_witness :
    (mkParticle ⟨8/10, 4/15, 200, 200, 10000, 10000, 9/10⟩ (fun _ => 0)
        ⟨0, 0, 3, 2⟩ 1).width_px = 3 ∧
    (mkParticle ⟨8/10, 4/15, 200, 200, 10000, 10000, 9/10⟩ (fun _ => 0)
        ⟨0, 0, 3, 2⟩ 1).width_mm = 11 ∧
    (mkParticle ⟨8/10, 4/15, 200, 200, 10000, 10000, 9/10⟩ (fun _ => 0)
        ⟨0, 0, 3, 2⟩ 1).width_mm =
      ratTrunc (((mkParticle ⟨8/10, 4/15, 200, 200, 10000, 10000, 9/10⟩ (fun _ => 0)
        ⟨0, 0, 3, 2⟩ 1).width_px : ℚ) / (4/15)) := by
  have h := detector_dimensions ⟨8/10, 4/15, 200, 200, 10000, 10000, 9/10⟩ (fun _ => 0)
    ⟨0, 0, 3, 2⟩ 1 3 2 (by with_unfolding_all decide) (by with_unfolding_all decide)
  refine ⟨h.2.2.2.2.1, ?_, h.2.2.2.2.2.2.1⟩
  with_unfolding_all decide

/-! ## Rollover / upload-offer traces

`_detector_worker` and `_classifier_worker` hand each CSV generation
request to the CSV writer together with a completion callback built by
`create_model_csv_callback` / `create_classifier_csv_callback`.  The
callback receives the written CSV path; if its `previous_csv_tracker`
holds a (truthy) previous path and an SFTP server is configured it
queues that previous path for upload, then records the current path.
Both workers rebuild `previous_csv_tracker = {'path': None}` afresh for
every request. -/

/-- Observable events of one CSV-writer request. -/
inductive CsvTraceEvent
  | openNew (path : String)
  | writeRow (path : String)
  | offer (path : String)
  | callbackRun (path : String)
deriving Repr, DecidableEq

/-- `occursBefore tr e1 e2` holds when some occurrence of `e1` in `tr`
is strictly earlier than some occurrence of `e2`. -/
def occursBefore {α : Type} [DecidableEq α] : List α → α → α → Bool
  | [], _, _ => false
  | x :: rest, e1, e2 =>
      (decide (x = e1) && decide (e2 ∈ rest)) || occursBefore rest e1 e2

/-- `on_model_csv_complete` / `on_classifier_csv_complete`: returns the
upload offers made (paths passed to `queue_upload`) and the updated
tracker.  A `None` or empty previous path is falsy in Python and makes
no offer. -/
def modelCsvCallback (tracker : Option String) (sftpConfigured : Bool)
    (csvPath : String) : List String × Option String :=
  match tracker with
  | some p => (if p ≠ "" ∧ sftpConfigured then [p] else [], some csvPath)
  | none => ([], some csvPath)

/-- The path an arrival is appended to (`csv_filepath`). -/
def csvUsedPath (st : ActiveCsvFiles) (a : CsvArrival) : String :=
  (createIrisCsvInput st a).2.1

/-- One CSV-writer request end to end: `create_iris_csv_input` creates
the new artifact (on rollover or first arrival) and writes the row,
then `_csv_worker` runs the completion callback on the returned path. -/
def processRequestTrace (st : ActiveCsvFiles) (a : CsvArrival)
    (tracker : Option String) (sftpConfigured : Bool) :
    List CsvTraceEvent × ActiveCsvFiles × Option String :=
  let res := createIrisCsvInput st a
  let genTrace := (if res.2.2 then [CsvTraceEvent.openNew res.2.1] else []) ++
    [CsvTraceEvent.writeRow res.2.1]
  let cb := modelCsvCallback tracker sftpConfigured res.2.1
  let cbTrace := cb.1.map CsvTraceEvent.offer ++ [CsvTraceEvent.callbackRun res.2.1]
  (genTrace ++ cbTrace, res.1, cb.2)

/-- One request as processed by `_detector_worker` /
`_classifier_worker`: `previous_csv_tracker = {'path': None}` is
rebuilt for this request, so the callback starts from an empty
tracker. -/
def freshTrackerWorkerStep (st : ActiveCsvFiles) (a : CsvArrival)
    (sftpConfigured : Bool) : List CsvTraceEvent × ActiveCsvFiles :=
  let r := processRequestTrace st a none sftpConfigured
  (r.1, r.2.1)

/-- A whole worker run over a sequence of requests (detector or
classifier stage), threading the aggregator state and concatenating
the emitted events. -/
def freshTrackerWorkerRun (arrivals : List CsvArrival) (sftpConfigured : Bool) :
    List CsvTraceEvent × ActiveCsvFiles :=
  arrivals.foldl (fun acc a =>
    let r := freshTrackerWorkerStep acc.2 a sftpConfigured
    (acc.1 ++ r.1, r.2)) ([], [])

def isOfferEvent : CsvTraceEvent → Bool
  | CsvTraceEvent.offer _ => true
  | _ => false

theorem freshTrackerWorkerStep_no_offer (st : ActiveCsvFiles) (a : CsvArrival)
    (sftp : Bool) :
    ((freshTrackerWorkerStep st a sftp).1.countP isOfferEvent) = 0 := by
  unfold freshTrackerWorkerStep processRequestTrace modelCsvCallback
  rcases (createIrisCsvInput st a).2.2 <;>
    simp [List.countP_append, List.countP_cons, isOfferEvent]

/-- C1 (the code violates the claim): no closed CSV artifact is ever
offered to the SFTP uploader.  Because both workers rebuild
`previous_csv_tracker = {'path': None}` for every request, the
completion callback never sees a previous path and `queue_upload` is
never called: over any request sequence the worker trace contains zero
offer events.  The concrete run shows two model-stage requests 60 s
apart with a 60 s interval and SFTP configured: artifact "A" is closed
by rollover (artifact "B" is opened) yet no offer of "A" occurs. -/
theorem detector_upload_never_offered :
    (∀ (arrivals : List CsvArrival) (sftp : Bool),
      ((freshTrackerWorkerRun arrivals sftp).1.countP isOfferEvent) = 0) ∧
    (freshTrackerWorkerRun
        [⟨"model", "A", 0, 60⟩, ⟨"model", "B", 60, 60⟩] true).1 =
      [CsvTraceEvent.openNew "A", CsvTraceEvent.writeRow "A",
       CsvTraceEvent.callbackRun "A", CsvTraceEvent.openNew "B",
       CsvTraceEvent.writeRow "B", CsvTraceEvent.callbackRun "B"] := by
  constructor
  · intro arrivals sftp
    unfold freshTrackerWorkerRun
    suffices h : ∀ (tr : List CsvTraceEvent) (st : ActiveCsvFiles),
        tr.countP isOfferEvent = 0 →
        ((arrivals.foldl (fun acc a =>
          let r := freshTrackerWorkerStep acc.2 a sftp
          (acc.1 ++ r.1, r.2)) (tr, st)).1.countP isOfferEvent) = 0 by
      exact h [] [] (by simp)
    induction arrivals with
    | nil => intro tr st htr; simpa using htr
    | cons a rest ih =>
        intro tr st htr
        simp only [List.foldl_cons]
        exact ih _ _ (by
          rw [List.countP_append, htr, freshTrackerWorkerStep_no_offer])
  · with_unfolding_all decide

/-- C2 (counterexample): rollover scenario with artifact "A" open since
time 0, interval 60 s, an arrival at time 60 creating artifact "B", a
tracker already holding "A" and SFTP configured.  The emitted trace is
open-"B", write-first-row-"B", offer-"A", callback — the offer of the
closed artifact does NOT occur before the new artifact records its
first row. -/
theorem csv_rollover_order_counterexample :
    (processRequestTrace [("model", ⟨"A", 0, 60⟩)] ⟨"model", "B", 60, 60⟩
        (some "A") true).1 =
      [CsvTraceEvent.openNew "B", CsvTraceEvent.writeRow "B",
       CsvTraceEvent.offer "A", CsvTraceEvent.callbackRun "B"] ∧
    occursBefore (processRequestTrace [("model", ⟨"A", 0, 60⟩)]
        ⟨"model", "B", 60, 60⟩ (some "A") true).1
      (CsvTraceEvent.offer "A") (CsvTraceEvent.writeRow "B") = false := by
  constructor <;> with_unfolding_all decide

/-- C2 (amended): for every CSV-writer request the record is written to
the (new or existing) artifact strictly before the completion callback
runs, and no upload offer ever precedes that write: the order is
close-then-open-then-write-then-offer, not close-then-offer-then-open. -/
theorem csv_write_precedes_callback (st : ActiveCsvFiles) (a : CsvArrival)
    (tracker : Option String) (sftp : Bool) :
    occursBefore (processRequestTrace st a tracker sftp).1
      (CsvTraceEvent.writeRow (csvUsedPath st a))
      (CsvTraceEvent.callbackRun (csvUsedPath st a)) = true ∧
    (∀ p, occursBefore (processRequestTrace st a tracker sftp).1
      (CsvTraceEvent.offer p) (CsvTraceEvent.writeRow (csvUsedPath st a)) = false) := by
  unfold processRequestTrace csvUsedPath
  rcases tracker with _ | p0
  · rcases hcn : (createIrisCsvInput st a).2.2 <;>
      simp [modelCsvCallback, hcn, occursBefore]
  · by_cases hp : p0 ≠ "" ∧ sftp = true
    · rcases hcn : (createIrisCsvInput st a).2.2 <;>
        simp [modelCsvCallback, hp, hcn, occursBefore]
    · rcases hcn : (createIrisCsvInput st a).2.2 <;>
        simp [modelCsvCallback, hp, hcn, occursBefore]

/-! ## Bounded worker queues

`BaseQueueThread.queue_item`, `CsvWriterThread.queue_csv_generation`,
`SftpUploaderThread.queue_upload`, `ModelDetectorThread.queue_detection`
and `ClassifierProcessorThread.queue_classification` all follow the
same pattern: refuse when the thread is not running, `put_nowait` the
item, update the stats dict, and catch `queue.Full` by returning
`False`.  Only the detector and classifier threads keep a
`total_dropped` counter and bump it in the `queue.Full` handler. -/

/-- Observable state of one worker thread: running flag, queue
contents, queue capacity, and the Python stats dict. -/
structure WorkerState (α : Type) where
  running : Bool
  queue : List α
  maxsize : ℕ
  stats : List (String × ℕ)
deriving Repr, DecidableEq

/-- Python `stats[k] += 1` (the key is present in every init dict). -/
def statsIncr (stats : List (String × ℕ)) (k : String) : List (String × ℕ) :=
  stats.map (fun e => if e.1 = k then (e.1, e.2 + 1) else e)

/-- Python `stats[k] = v`. -/
def statsSet (stats : List (String × ℕ)) (k : String) (v : ℕ) : List (String × ℕ) :=
  stats.map (fun e => if e.1 = k then (e.1, v) else e)

/-- `queue.Queue.put_nowait` raises `queue.Full` exactly when the queue
is bounded and at (or beyond) capacity. -/
def putWouldFail {α : Type} (st : WorkerState α) : Bool :=
  decide (0 < st.maxsize ∧ st.maxsize ≤ st.queue.length)

/-- `ModelDetectorThread.queue_detection`: on `queue.Full` the frame is
dropped and `total_dropped` is incremented. -/
def queueDetection {α : Type} (st : WorkerState α) (item : α) : Bool × WorkerState α :=
  if st.running = false then (false, st)
  else if putWouldFail st then
    (false, { st with stats := statsIncr st.stats "total_dropped" })
  else
    let q := st.queue ++ [item]
    (true, { st with
      queue := q
      stats := statsSet (statsIncr st.stats "total_queued") "queue_size" q.length })

/-- `ClassifierProcessorThread.queue_classification`: same shape as the
detector, including the `total_dropped` bump on `queue.Full`. -/
def queueClassification {α : Type} (st : WorkerState α) (item : α) : Bool × WorkerState α :=
  if st.running = false then (false, st)
  else if putWouldFail st then
    (false, { st with stats := statsIncr st.stats "total_dropped" })
  else
    let q := st.queue ++ [item]
    (true, { st with
      queue := q
      stats := statsSet (statsIncr st.stats "total_queued") "queue_size" q.length })

/-- `CsvWriterThread.queue_csv_generation`: the `queue.Full` handler
only logs and returns `False`; its stats dict has no dropped key. -/
def queueCsvGeneration {α : Type} (st : WorkerState α) (item : α) : Bool × WorkerState α :=
  if st.running = false then (false, st)
  else if putWouldFail st then (false, st)
  else
    let q := st.queue ++ [item]
    (true, { st with
      queue := q
      stats := statsSet (statsIncr st.stats "total_queued") "queue_size" q.length })

/-- `SftpUploaderThread.queue_upload`: same as the CSV writer — no
dropped counter in its stats dict. -/
def queueUpload {α : Type} (st : WorkerState α) (item : α) : Bool × WorkerState α :=
  if st.running = false then (false, st)
  else if putWouldFail st then (false, st)
  else
    let q := st.queue ++ [item]
    (true, { st with
      queue := q
      stats := statsSet (statsIncr st.stats "total_queued") "queue_size" q.length })

/-- `BaseQueueThread.queue_item`: generic enqueue, also without a
dropped counter. -/
def queueItem {α : Type} (st : WorkerState α) (item : α) : Bool × WorkerState α :=
  if st.running = false then (false, st)
  else if putWouldFail st then (false, st)
  else
    let q := st.queue ++ [item]
    (true, { st with
      queue := q
      stats := statsSet (statsIncr st.stats "total_queued") "queue_size" q.length })

/-- `ModelDetectorThread.__init__` stats keys. -/
def detectorInitStats : List (String × ℕ) :=
  [("total_queued", 0), ("total_processed", 0), ("total_failed", 0),
   ("total_dropped", 0), ("queue_size", 0)]

/-- `CsvWriterThread.__init__` stats keys — no dropped counter. -/
def csvWriterInitStats : List (String × ℕ) :=
  [("total_queued", 0), ("total_written", 0), ("total_failed", 0), ("queue_size", 0)]

/-- `SftpUploaderThread.__init__` stats keys — no dropped counter. -/
def uploaderInitStats : List (String × ℕ) :=
  [("total_queued", 0), ("total_uploaded", 0), ("total_failed", 0), ("queue_size", 0)]

/-- A CSV writer at its capacity of 200 queued requests. -/
def csvWriterFullState : WorkerState ℕ :=
  { running := true, queue := List.replicate 200 0, maxsize := 200,
    stats := csvWriterInitStats }

/-- An SFTP uploader at its capacity of 100 queued jobs. -/
def uploaderFullState : WorkerState ℕ :=
  { running := true, queue := List.replicate 100 0, maxsize := 100,
    stats := uploaderInitStats }

set_option maxRecDepth 8000 in
/-- C7 (counterexample): at capacity the CSV writer's and the SFTP
uploader's enqueue return failure but leave the whole state — stats
included — unchanged, and their stats dicts contain no `total_dropped`
key at all, so no dropped counter is incremented by one. -/
theorem queue_full_no_dropped_counter_counterexample :
    queueCsvGeneration csvWriterFullState 7 = (false, csvWriterFullState) ∧
    queueUpload uploaderFullState 7 = (false, uploaderFullState) ∧
    dictGet csvWriterFullState.stats "total_dropped" = none ∧
    dictGet uploaderFullState.stats "total_dropped" = none := by
  refine ⟨?_, ?_, ?_, ?_⟩ <;> decide

/-- C7 (amended): when a running worker's queue is at capacity, the
next enqueue returns failure without blocking and the item is dropped
on every queue; the detector and classifier additionally increment
their `total_dropped` counter by one, while the CSV writer and the
uploader leave their state unchanged (they have no dropped counter). -/
theorem queue_full_behavior {α : Type} (st : WorkerState α) (item : α)
    (hrun : st.running = true) (hpos : 0 < st.maxsize)
    (hfull : st.maxsize ≤ st.queue.length) :
    queueDetection st item =
      (false, { st with stats := statsIncr st.stats "total_dropped" }) ∧
    queueClassification st item =
      (false, { st with stats := statsIncr st.stats "total_dropped" }) ∧
    queueCsvGeneration st item = (false, st) ∧
    queueUpload st item = (false, st) := by
  have hfail : putWouldFail st = true := by
    simp [putWouldFail]
    exact ⟨hpos, hfull⟩
  refine ⟨?_, ?_, ?_, ?_⟩ <;>
    simp [queueDetection, queueClassification, queueCsvGeneration, queueUpload,
      hrun, hfail]

/-- A detector at its capacity of 50 queued frames. -/
def detectorFullState : WorkerState ℕ :=
  { running := true, queue := List.replicate 50 0, maxsize := 50,
    stats := detectorInitStats }

/-- Witness for C7 (amended): the four full queues at their configured
capacities (detector 50, classifier 50, CSV 200, uploader 100). -/
theorem queue_full_behavior_witness :
    queueDetection detectorFullState 9 =
      (false, { detectorFullState with
        stats := statsIncr detectorFullState.stats "total_dropped" }) ∧
    queueClassification detectorFullState 9 =
      (false, { detectorFullState with
        stats := statsIncr detectorFullState.stats "total_dropped" }) ∧
    queueCsvGeneration detectorFullState 9 = (false, detectorFullState) ∧
    queueUpload detectorFullState 9 = (false, detectorFullState) :=
  queue_full_behavior detectorFullState 9 (by decide) (by decide) (by decide)

/-- C10: every enqueue operation on a worker thread that is not running
returns `False` and leaves the queue contents and the statistics
counters unchanged. -/
theorem queue_not_running_noop {α : Type} (st : WorkerState α) (item : α)
    (h : st.running = false) :
    queueItem st item = (false, st) ∧
    queueCsvGeneration st item = (false, st) ∧
    queueUpload st item = (false, st) ∧
    queueDetection st item = (false, st) ∧
    queueClassification st item = (false, st) := by
  refine ⟨?_, ?_, ?_, ?_, ?_⟩ <;>
    simp [queueItem, queueCsvGeneration, queueUpload, queueDetection,
      queueClassification, h]

/-- A stopped (never started) CSV writer with an empty queue. -/
def csvWriterStoppedState : WorkerState ℕ :=
  { running := false, queue := [], maxsize := 200, stats := csvWriterInitStats }

/-- Witness for C10: a stopped CSV writer refuses all five enqueue
operations unchanged. -/
theorem queue_not_running_noop_witness :
    queueItem csvWriterStoppedState 3 = (false, csvWriterStoppedState) ∧
    queueCsvGeneration csvWriterStoppedState 3 = (false, csvWriterStoppedState) ∧
    queueUpload csvWriterStoppedState 3 = (false, csvWriterStoppedState) ∧
    queueDetection csvWriterStoppedState 3 = (false, csvWriterStoppedState) ∧
    queueClassification csvWriterStoppedState 3 = (false, csvWriterStoppedState) :=
  queue_not_running_noop csvWriterStoppedState 3 (by decide)

/-! ## Task registry and control endpoints
(`infrastructure/thread_manager.py`, `controllers/camera_controller.py`)

`ThreadManager._threads` maps a task key to `{running, status, ...}`
plus the underlying OS thread; the `/start-thread` endpoint probes the
source server's health URL before registering anything, and
`/stop-thread` delegates to `ThreadManager.stop_thread`. -/

/-- One `ThreadManager._threads` entry: the running flag, the status
string, and whether the underlying OS thread `is_alive()`. -/
structure TMEntry where
  running : Bool
  status : String
  alive : Bool
deriving Repr, DecidableEq

/-- The task registry. -/
abbrev TaskRegistry := List (String × TMEntry)

/-- `ThreadManager.is_running`. -/
def registryIsRunning (reg : TaskRegistry) (key : String) : Bool :=
  match dictGet reg key with
  | none => false
  | some e => e.running

/-- Outcome of the health probe `socket_manager.get(server_check_url)`
in `/start-thread`. -/
inductive ProbeResult
  | ok200
  | badStatus (code : Nat)
  | connError
  | timeoutErr
  | otherError
deriving Repr, DecidableEq

/-- A probe outcome that does not yield HTTP 200. -/
def ProbeResult.failed : ProbeResult → Bool
  | ProbeResult.ok200 => false
  | _ => true

/-- The `/start-thread` endpoint: reject with 400 if the key is already
running, then probe the server; every probe failure (non-200 status,
connection error, timeout, other exception) returns 503 before
`thread_manager.start_thread` is reached; only a 200 probe registers
the task (running, status `starting`). -/
def startThreadEndpoint (reg : TaskRegistry) (key : String) (probe : ProbeResult) :
    Nat × TaskRegistry :=
  if registryIsRunning reg key then (400, reg)
  else
    match probe with
    | ProbeResult.ok200 => (200, dictUpsert reg key ⟨true, "starting", true⟩)
    | _ => (503, reg)

/-- C8: when the health probe of the source's server fails at start
(connection refused, timeout, or non-200 status), `/start-thread`
returns 503 and the task registry is unchanged — no task is
registered. -/
theorem start_thread_probe_failure (reg : TaskRegistry) (key : String)
    (probe : ProbeResult) (hrun : registryIsRunning reg key = false)
    (hfail : probe.failed = true) :
    startThreadEndpoint reg key probe = (503, reg) := by
  unfold startThreadEndpoint
  rw [hrun]
  cases probe with
  | ok200 => simp [ProbeResult.failed] at hfail
  | badStatus code => rfl
  | connError => rfl
  | timeoutErr => rfl
  | otherError => rfl

/-- Witness for C8: `StartTask(legacy, 0, …)` with the probe refused —
failure 503 and an empty registry stays empty. -/
theorem start_thread_probe_failure_witness :
    startThreadEndpoint [] "legacy_0" ProbeResult.connError = (503, []) :=
  start_thread_probe_failure [] "legacy_0" ProbeResult.connError (by decide) (by decide)

/-- `ThreadManager.stop_thread` with timeout: an untracked key succeeds
untouched; a tracked key first has `running := False` and
`status := 'stopping'` written; if it was already stopped the call
returns success right there; otherwise the thread is joined
(`joinExits` says whether it exits within the timeout) and on success
the status becomes `stopped`. -/
def stopThreadTM (reg : TaskRegistry) (key : String) (joinExits : Bool) :
    Bool × TaskRegistry :=
  match dictGet reg key with
  | none => (true, reg)
  | some e =>
      let reg1 := dictUpsert reg key { e with running := false, status := "stopping" }
      if e.running = false then (true, reg1)
      else if e.alive = true ∧ joinExits = false then (false, reg1)
      else (true, dictUpsert reg1 key ⟨false, "stopped", false⟩)

/-- C9 (counterexample): starting from a running task, the first
`StopTask` succeeds and leaves the entry `{running := false, status :=
"stopped"}`; the second call also reports success but overwrites the
status to `"stopping"` — it changes the registry, so it is not a
no-op. -/
theorem stop_thread_second_call_not_noop :
    stopThreadTM [("webcam_0", ⟨true, "running", true⟩)] "webcam_0" true =
      (true, [("webcam_0", ⟨false, "stopped", false⟩)]) ∧
    stopThreadTM [("webcam_0", ⟨false, "stopped", false⟩)] "webcam_0" true =
      (true, [("webcam_0", ⟨false, "stopping", false⟩)]) ∧
    [("webcam_0", (⟨false, "stopping", false⟩ : TMEntry))] ≠
      [("webcam_0", ⟨false, "stopped", false⟩)] := by
  refine ⟨?_, ?_, ?_⟩ <;> decide

/-- C9 (amended): two consecutive `StopTask` calls on the same key both
report success; the second leaves the running flag `false` and the rest
of the registry untouched, but it is not a state no-op: it rewrites the
task's status string to `"stopping"`.  Stopping a key that is no longer
tracked succeeds and changes nothing. -/
theorem stop_thread_idempotent_success (reg : TaskRegistry) (key : String)
    (je : Bool) :
    (dictGet reg key = none → stopThreadTM reg key je = (true, reg)) ∧
    (∀ e : TMEntry, dictGet reg key = some e → e.running = false →
      stopThreadTM reg key je =
        (true, dictUpsert reg key { e with running := false, status := "stopping" })) := by
  constructor
  · intro hnone
    unfold stopThreadTM
    rw [hnone]
  · intro e hsome hstopped
    unfold stopThreadTM
    rw [hsome]
    simp [hstopped]

/-- Witness for C9 (amended): a registry holding the already-stopped
task and a registry where it has been garbage-collected, both reporting
success on stop. -/
theorem stop_thread_idempotent_success_witness :
    stopThreadTM [] "webcam_0" true = (true, []) ∧
    stopThreadTM [("simulator_0", ⟨false, "stopped", false⟩)] "simulator_0" false =
      (true, [("simulator_0", ⟨false, "stopping", false⟩)]) := by
  constructor
  · exact (stop_thread_idempotent_success [] "webcam_0" true).1 rfl
  · have h := (stop_thread_idempotent_success
      [("simulator_0", ⟨false, "stopped", false⟩)] "simulator_0" false).2
      ⟨false, "stopped", false⟩ (by decide) rfl
    simpa [dictUpsert] using h

/-- The default detector settings (`get_camera_settings` fallback). -/
def c4Settings : CameraSettings := ⟨8/10, 4/15, 200, 200, 10000, 10000, 9/10⟩

/-- Two detections: a 100×80 px box (in the detect window) and a
10×10 px box (below `min_d_detect`). -/
def c4Dets : List (Box × ℚ) := [(⟨0, 0, 100, 80⟩, 9/10), (⟨0, 0, 10, 10⟩, 8/10)]

/-- The CSV rows produced for the two detections above. -/
def c4Rows : List DetectorCsvRow :=
  modelDataToRows (resultForCsv (objectProcessImage c4Settings (fun _ => 0) "img" c4Dets))
    "2026-01-01" 1 1

/-- Witness for C4: of the two detections only the in-window particle
(`max_d_mm = 338`) reaches `to_detect`, exactly one CSV row results,
and its `max_d_mm` respects the bounds. -/
theorem detector_filters_and_csv_bounds_witness :
    ((objectProcessImage c4Settings (fun _ => 0) "img" c4Dets).toDetect.map
      (fun p => p.max_d_mm)) = [338] ∧
    c4Rows.length = 1 ∧
    ((200 : ℚ) ≤ (c4Rows.headI.max_d_mm : ℚ) ∧ (c4Rows.headI.max_d_mm : ℚ) ≤ 10000) := by
  refine ⟨by with_unfolding_all decide, by with_unfolding_all decide, ?_⟩
  exact (detector_filters_and_csv_bounds c4Settings (fun _ => 0) "img" c4Dets
    "2026-01-01" 1 1).2.2.2 c4Rows.headI (by with_unfolding_all decide)

end BetlVision
